import Mathlib

/-!
Verification of the macroquest-rs FFI boundary layer.

Shallow embedding of the C++ shim files under `src/macroquest` and
`src/macroquest-sys`, which marshal MacroQuest host state (path globals,
chat output, entity records, plugin descriptors) across a cxx bridge.

The host process itself (the `::mq` / `::eqlib` entry points and globals)
is external to the repository; its observable behavior is modelled from
the specification's description of those collaborators (§4.2, §6):
`WriteChatColor` appends its text argument literally, `WriteChatColorf`
interprets a printf-style template with arguments substituted
positionally, and the nine `gPath*` globals hold host-resolved strings.
-/

namespace MQRust

/-- The NUL character terminating C strings. -/
def NUL : Char := Char.ofNat 0

/-- Effect of `static_cast<std::string>(line).c_str()` as received by the
host: the host reads the buffer up to the first NUL byte, so the text
that crosses the boundary is the longest NUL-free prefix of the payload. -/
def cString (s : List Char) : List Char := s.takeWhile (fun c => c ≠ NUL)

/-- printf-style template interpretation performed by the host's
`WriteChatColorf` entry point (modelled from the spec: "interprets a
template with the payload substituted positionally").  Only the
directives exercised by this repository are modelled: `%s` consumes the
next argument and splices it in whole (never re-scanned), `%%` emits a
literal percent, and every other character is copied verbatim. -/
def formatTemplate : List Char → List (List Char) → List Char
  | [], _ => []
  | '%' :: 's' :: rest, arg :: args => arg ++ formatTemplate rest args
  | '%' :: 's' :: rest, [] => formatTemplate rest []
  | '%' :: '%' :: rest, args => '%' :: formatTemplate rest args
  | c :: rest, args => c :: formatTemplate rest args

/-- One line of the host's chat output: rendered text plus palette color. -/
structure ChatLine where
  text : List Char
  color : Int
  deriving Repr, DecidableEq

/-- The nine host path globals read by the path accessors
(`src/macroquest-sys/src/mq.cc` lines 9-17).  Each is a host-resolved
C-string; the stored `String` is the C-string content of the buffer. -/
structure PathGlobals where
  gPathMQRoot : String
  gPathConfig : String
  gPathMQini : String
  gPathMacros : String
  gPathLogs : String
  gPathCrashDumps : String
  gPathPlugins : String
  gPathResources : String
  gPathEverQuest : String
  deriving Repr, DecidableEq

/-- Host entity record `::eqlib::PlayerClient`: a large host-owned
structure of which the boundary touches only the display-name field
`Name`; `hostInternal` stands for the remainder of the host's layout. -/
structure PlayerClient where
  Name : String
  hostInternal : Nat
  deriving Repr, DecidableEq

/-- Host entity record `::eqlib::EQGroundItem`, likewise narrowed to its
display-name field `Name`. -/
structure EQGroundItem where
  Name : String
  hostInternal : Nat
  deriving Repr, DecidableEq

/-- Host plugin descriptor `MQPlugin` with its `name` field
(`src/macroquest-sys/src/mq.cc` line 26 reads `this->name`). -/
structure MQPlugin where
  name : String
  hostInternal : Nat
  deriving Repr, DecidableEq

/-- The host-owned mutable state visible through the boundary: the
initialization flag of the host's {Uninitialized → Initialized} state
machine, the nine path globals, the chat output log, and the host's
entity / descriptor memory addressed by raw pointers (`Nat` addresses;
an address holding `none` is an invalid — null or stale — reference). -/
structure HostState where
  initialized : Bool
  paths : PathGlobals
  chat : List ChatLine
  players : Nat → Option PlayerClient
  groundItems : Nat → Option EQGroundItem
  plugins : Nat → Option MQPlugin

/-! ## Path accessors (`src/macroquest-sys/src/mq.cc` lines 9-17)

Each accessor body is a single `return ::mq::gPath...;` — it reads the
global unconditionally, with no initialization check and no error path
(the return type `rust::Str` has no failure variant). -/

def get_path_MQRoot (s : HostState) : String := s.paths.gPathMQRoot

def get_path_Config (s : HostState) : String := s.paths.gPathConfig

def get_path_MQini (s : HostState) : String := s.paths.gPathMQini

def get_path_Macros (s : HostState) : String := s.paths.gPathMacros

def get_path_Logs (s : HostState) : String := s.paths.gPathLogs

def get_path_CrashDumps (s : HostState) : String := s.paths.gPathCrashDumps

def get_path_Plugins (s : HostState) : String := s.paths.gPathPlugins

def get_path_Resources (s : HostState) : String := s.paths.gPathResources

def get_path_EverQuest (s : HostState) : String := s.paths.gPathEverQuest

/-- The nine path categories of the data model (§3). -/
inductive PathCategory where
  | MQRoot | Config | MQini | Macros | Logs | CrashDumps | Plugins | Resources | EverQuest
  deriving Repr, DecidableEq

/-- Dispatch over the nine accessors, for claims quantifying "for every
one of the nine path accessors". -/
def get_path (c : PathCategory) (s : HostState) : String :=
  match c with
  | .MQRoot => get_path_MQRoot s
  | .Config => get_path_Config s
  | .MQini => get_path_MQini s
  | .Macros => get_path_Macros s
  | .Logs => get_path_Logs s
  | .CrashDumps => get_path_CrashDumps s
  | .Plugins => get_path_Plugins s
  | .Resources => get_path_Resources s
  | .EverQuest => get_path_EverQuest s

/-- The value the host holds for a path category. -/
def hostPathValue (c : PathCategory) (g : PathGlobals) : String :=
  match c with
  | .MQRoot => g.gPathMQRoot
  | .Config => g.gPathConfig
  | .MQini => g.gPathMQini
  | .Macros => g.gPathMacros
  | .Logs => g.gPathLogs
  | .CrashDumps => g.gPathCrashDumps
  | .Plugins => g.gPathPlugins
  | .Resources => g.gPathResources
  | .EverQuest => g.gPathEverQuest

/-! ## Chat output: the two host entry points and the two bindings -/

/-- Host entry point `::mq::WriteChatColor(text, color)` (external;
modelled from the spec: the literal, non-interpreting variant): appends
the given text verbatim to the chat output in the given color. -/
def hostWriteChatColor (s : HostState) (text : List Char) (color : Int) : HostState :=
  { s with chat := s.chat ++ [⟨text, color⟩] }

/-- Host entry point `::mq::WriteChatColorf(template, color, args...)`
(external; modelled from the spec: the format-interpreting variant):
appends the template rendered with the arguments substituted
positionally. -/
def hostWriteChatColorf (s : HostState) (template : List Char) (color : Int)
    (args : List (List Char)) : HostState :=
  { s with chat := s.chat ++ [⟨formatTemplate template args, color⟩] }

namespace MacroquestSys

/-- Function `write_chat_color` of `src/macroquest-sys/src/mq.cc` lines 20-23:
`::mq::WriteChatColor(static_cast<std::string>(line).c_str(), color);`
— the payload goes to the plain entry point as the text argument. -/
def write_chat_color (s : HostState) (line : List Char) (color : Int) : HostState :=
  hostWriteChatColor s (cString line) color

end MacroquestSys

namespace Macroquest

/-- Function `write_chat_color` of `src/macroquest/src/ffi/mq.cc` lines 8-11:
`::mq::WriteChatColorf("%s", color, static_cast<std::string>(line).c_str());`
— the template is the fixed literal `"%s"`, the payload is the
substituted argument. -/
def write_chat_color (s : HostState) (line : List Char) (color : Int) : HostState :=
  hostWriteChatColorf s ['%', 's'] color [cString line]

end Macroquest

/-! ## Display-name projections
(`src/macroquest-sys/src/eqlib.cc` lines 8-10, `src/macroquest/src/ffi/eqlib.cc`
lines 8-10, `src/macroquest-sys/src/mq.cc` line 26) -/

/-- Outcome of a display-name projection.  `ok` is a returned string;
`invalidRefError` is the spec's distinct Invalid-reference error (§7b),
present in the outcome type so the spec's demand can be stated; `ub` is
an undefined-behavior execution (a dereference of an invalid pointer has
no defined result). -/
inductive NameResult where
  | ok (s : String)
  | invalidRefError
  | ub
  deriving Repr, DecidableEq

/-- Method body `rust::Str PlayerClient::name() const { return this->Name; }`
— an unconditional dereference of `this` with no validity check:
a reference to a live record yields its `Name` field; a null or stale
reference (`none` in host memory) is undefined behavior. -/
def playerClient_name (mem : Nat → Option PlayerClient) (p : Nat) : NameResult :=
  match mem p with
  | some r => .ok r.Name
  | none => .ub

/-- Method body `rust::Str EQGroundItem::name() const { return this->Name; }`
— identical unconditional dereference. -/
def eqGroundItem_name (mem : Nat → Option EQGroundItem) (p : Nat) : NameResult :=
  match mem p with
  | some r => .ok r.Name
  | none => .ub

/-- Method body `rust::Str MQPlugin::plugin_name() const { return this->name; }`
— identical unconditional dereference. -/
def mqPlugin_plugin_name (mem : Nat → Option MQPlugin) (p : Nat) : NameResult :=
  match mem p with
  | some r => .ok r.name
  | none => .ub

/-! ## Text marshalling at the bridge

Every string-returning operation returns `rust::Str`.  cxx's `rust::Str`
construction from a host `const char *` validates that the bytes are
UTF-8 and throws `std::invalid_argument` when they are not; no lossy
substitution and no error-result return path exists in the bridge. -/

/-- A UTF-8 continuation byte: `10xxxxxx`. -/
def isCont (b : Nat) : Bool := decide (0x80 ≤ b ∧ b ≤ 0xBF)

/-- Strict UTF-8 validity of a host byte sequence (shortest-form only,
surrogates and values above U+10FFFF rejected) — the validation
`rust::Str` construction performs. -/
def validUtf8 : List Nat → Bool
  | [] => true
  | b :: rest =>
    if b ≤ 0x7F then validUtf8 rest
    else if 0xC2 ≤ b ∧ b ≤ 0xDF then
      match rest with
      | b1 :: r => isCont b1 && validUtf8 r
      | [] => false
    else if b = 0xE0 then
      match rest with
      | b1 :: b2 :: r => decide (0xA0 ≤ b1 ∧ b1 ≤ 0xBF) && isCont b2 && validUtf8 r
      | _ => false
    else if (0xE1 ≤ b ∧ b ≤ 0xEC) ∨ b = 0xEE ∨ b = 0xEF then
      match rest with
      | b1 :: b2 :: r => isCont b1 && isCont b2 && validUtf8 r
      | _ => false
    else if b = 0xED then
      match rest with
      | b1 :: b2 :: r => decide (0x80 ≤ b1 ∧ b1 ≤ 0x9F) && isCont b2 && validUtf8 r
      | _ => false
    else if b = 0xF0 then
      match rest with
      | b1 :: b2 :: b3 :: r =>
        decide (0x90 ≤ b1 ∧ b1 ≤ 0xBF) && isCont b2 && isCont b3 && validUtf8 r
      | _ => false
    else if 0xF1 ≤ b ∧ b ≤ 0xF3 then
      match rest with
      | b1 :: b2 :: b3 :: r => isCont b1 && isCont b2 && isCont b3 && validUtf8 r
      | _ => false
    else if b = 0xF4 then
      match rest with
      | b1 :: b2 :: b3 :: r =>
        decide (0x80 ≤ b1 ∧ b1 ≤ 0x8F) && isCont b2 && isCont b3 && validUtf8 r
      | _ => false
    else false

/-- Outcome of marshalling host bytes into `rust::Str`: the bytes pass
through unchanged, or `std::invalid_argument` is thrown at the bridge.
No constructor represents an explicit caller-visible failure result,
because the bridge signatures offer none. -/
inductive MarshalResult where
  | ok (bytes : List Nat)
  | thrownInvalidArgument
  deriving Repr, DecidableEq

/-- `rust::Str` construction from a host C-string: UTF-8 is borrowed
unchanged, anything else throws. -/
def rustStrFromHost (bytes : List Nat) : MarshalResult :=
  if validUtf8 bytes then .ok bytes else .thrownInvalidArgument

/-! ## Structural layout model for the narrowed boundary views

A C++ object is modelled by its leading layout: the ordered list of
named data-member slots with their contents.  A boundary view class
deriving from a host class (single non-virtual inheritance places the
base subobject at offset 0) has layout: base layout followed by the
slots for the data members the view class itself declares.  Member
functions occupy no slots. -/

/-- Ordered named data-member slots of an object. -/
abbrev Layout := List (String × String)

/-- Reading a named field from a layout: the first slot of that name. -/
def readSlot : Layout → String → Option String
  | [], _ => none
  | (n, v) :: rest, f => if n = f then some v else readSlot rest f

/-- Data members declared by `mqrust::eqlib::EQGroundItem` itself
(`src/macroquest/include/eqlib.h` lines 12-16: the class body contains
only the member-function declaration `rust::Str name() const`). -/
def EQGroundItem_ownMembers : Layout := []

/-- Data members declared by `mqrust::eqlib::PlayerClient` itself.
Modelled from the spec: the class declaration is in a header not in the
repository snapshot; per §4.3/§9 the view is a verified-prefix
projection exposing only the read-only `name()` method, declaring no
data members. -/
def PlayerClient_ownMembers : Layout := []

/-- Data members declared by `mqrust::mq::MQPlugin` itself.  Modelled
from the spec: the class declaration is in a header not in the
repository snapshot; per §4.4 the component only projects one field of
the host descriptor and declares nothing of its own. -/
def MQPlugin_ownMembers : Layout := []

/-- Layout of a derived boundary view over a host base layout. -/
def derivedLayout (base own : Layout) : Layout := base ++ own

/-! ## Uniform small-step semantics of the boundary surface

One constructor per boundary operation of §6; running an operation
yields the successor host state and the operation's output. -/

/-- The thirteen boundary operations. -/
inductive Op where
  | getPath (c : PathCategory)
  | writeChatColor (line : List Char) (color : Int)
  | playerName (p : Nat)
  | groundItemName (p : Nat)
  | pluginName (p : Nat)
  deriving Repr, DecidableEq

/-- Output of one boundary operation. -/
inductive Output where
  | str (s : String)
  | nameRes (r : NameResult)
  | unit
  deriving Repr, DecidableEq

/-- Whether an operation is one of the read-only accessors (everything
except the chat write). -/
def readOnly : Op → Bool
  | .writeChatColor _ _ => false
  | _ => true

/-- Execute one boundary operation against a host state.  The chat
write is the `macroquest-sys` binding (the current revision); every
other operation returns its value without touching the state.  On an
undefined-behavior name projection the state component is a modelling
convention only — the theorems about read-only operations exclude the
`ub` outcome by hypothesis. -/
def runOp (s : HostState) : Op → HostState × Output
  | .getPath c => (s, .str (get_path c s))
  | .writeChatColor line color => (MacroquestSys.write_chat_color s line color, .unit)
  | .playerName p => (s, .nameRes (playerClient_name s.players p))
  | .groundItemName p => (s, .nameRes (eqGroundItem_name s.groundItems p))
  | .pluginName p => (s, .nameRes (mqPlugin_plugin_name s.plugins p))

/-! ## Concrete host states for evaluation -/

/-- A set of host-resolved path values. -/
def sampleGlobals : PathGlobals where
  gPathMQRoot := "C:\\MacroQuest"
  gPathConfig := "C:\\MacroQuest\\config"
  gPathMQini := "C:\\MacroQuest\\config\\MacroQuest.ini"
  gPathMacros := "C:\\MacroQuest\\macros"
  gPathLogs := "C:\\MacroQuest\\logs"
  gPathCrashDumps := "C:\\MacroQuest\\crashdumps"
  gPathPlugins := "C:\\MacroQuest\\plugins"
  gPathResources := "C:\\MacroQuest\\resources"
  gPathEverQuest := "C:\\EverQuest"

/-- An initialized host state with one live player record at address 1
and one live plugin descriptor at address 2. -/
def sampleState : HostState where
  initialized := true
  paths := sampleGlobals
  chat := []
  players := fun p => if p = 1 then some ⟨"Bristlebane", 0⟩ else none
  groundItems := fun _ => none
  plugins := fun p => if p = 2 then some ⟨"mq2rust", 0⟩ else none

/-- Path globals that still hold leftover buffer contents: the host has
not yet resolved any path. -/
def staleGlobals : PathGlobals where
  gPathMQRoot := "<stale-bytes>"
  gPathConfig := "<stale-bytes>"
  gPathMQini := "<stale-bytes>"
  gPathMacros := "<stale-bytes>"
  gPathLogs := "<stale-bytes>"
  gPathCrashDumps := "<stale-bytes>"
  gPathPlugins := "<stale-bytes>"
  gPathResources := "<stale-bytes>"
  gPathEverQuest := "<stale-bytes>"

/-- A host state in the Uninitialized state. -/
def uninitState : HostState where
  initialized := false
  paths := staleGlobals
  chat := []
  players := fun _ => none
  groundItems := fun _ => none
  plugins := fun _ => none

/-! ## Helper lemmas -/

/-- A payload without NUL characters crosses `c_str()` unchanged. -/
theorem cString_of_not_mem_NUL (s : List Char) (h : NUL ∉ s) : cString s = s := by
  unfold cString
  simp only [List.takeWhile_eq_self_iff, decide_eq_true_eq]
  exact fun x hx hh => h (hh ▸ hx)

/-- Rendering the fixed template `"%s"` with a single argument yields
exactly that argument. -/
theorem formatTemplate_percent_s (arg : List Char) :
    formatTemplate ['%', 's'] [arg] = arg := by
  simp [formatTemplate]

/-- Read-only operations do not change the host state. -/
theorem runOp_readOnly_state (s : HostState) (op : Op) (h : readOnly op = true) :
    (runOp s op).1 = s := by
  cases op with
  | writeChatColor line color => simp [readOnly] at h
  | getPath c => rfl
  | playerName p => rfl
  | groundItemName p => rfl
  | pluginName p => rfl

/-! ## Claim theorems -/

/-- C1: for every payload — including one containing a templating
sequence such as `"%s"` — both candidate bindings of write chat line
pass the payload so it appears verbatim, character-for-character, in
the host's chat output, and the payload is never interpreted as a
format template.  Hypothesis: the payload is representable as a host
C string, i.e. contains no NUL character (spec §4.2 requires the
payload to be representable in the host's expected text encoding). -/
theorem c1_payload_verbatim (s : HostState) (payload : List Char) (color : Int)
    (h : NUL ∉ payload) :
    (Macroquest.write_chat_color s payload color).chat = s.chat ++ [⟨payload, color⟩] ∧
    (MacroquestSys.write_chat_color s payload color).chat = s.chat ++ [⟨payload, color⟩] := by
  constructor
  · simp [Macroquest.write_chat_color, hostWriteChatColorf, formatTemplate_percent_s,
      cString_of_not_mem_NUL payload h]
  · simp [MacroquestSys.write_chat_color, hostWriteChatColor,
      cString_of_not_mem_NUL payload h]

/-- Witness for C1 at the concrete payload `"loot %s %d %%"`, color 5:
the templating sequences land verbatim in the chat output. -/
theorem c1_payload_verbatim_witness :
    NUL ∉ ("loot %s %d %%".toList) ∧
    ((Macroquest.write_chat_color sampleState ("loot %s %d %%".toList) 5).chat
        = sampleState.chat ++ [⟨"loot %s %d %%".toList, 5⟩] ∧
      (MacroquestSys.write_chat_color sampleState ("loot %s %d %%".toList) 5).chat
        = sampleState.chat ++ [⟨"loot %s %d %%".toList, 5⟩]) :=
  ⟨by decide, c1_payload_verbatim sampleState ("loot %s %d %%".toList) 5 (by decide)⟩

/-- C4: the two revisions of write chat line — the `macroquest-sys`
binding calling plain `WriteChatColor(payload, color)` and the
`macroquest` binding calling `WriteChatColorf("%s", color, payload)` —
are observationally equivalent: for every payload and color they
produce the identical successor host state (same chat text, same
color). -/
theorem c4_bindings_observationally_equal (s : HostState) (payload : List Char) (color : Int) :
    Macroquest.write_chat_color s payload color
      = MacroquestSys.write_chat_color s payload color := by
  simp [Macroquest.write_chat_color, MacroquestSys.write_chat_color,
    hostWriteChatColorf, hostWriteChatColor, formatTemplate_percent_s]

/-- Counterexample to C2: in a concrete Uninitialized host state the
path accessor does not return an Uninitialized-state error — its return
type has no error variant at all — and returns the raw, non-empty
contents of the unresolved global, contradicting "never a non-empty
string". -/
theorem c2_counterexample :
    uninitState.initialized = false ∧
    get_path_MQRoot uninitState = "<stale-bytes>" ∧
    "<stale-bytes>" ≠ "" :=
  ⟨rfl, rfl, by decide⟩

/-- C2 as amended: the path accessors perform no initialization check;
invoked while the host is Uninitialized, each returns exactly the raw
current contents of its host global (possibly non-empty garbage), and
no Uninitialized-state error is signaled. -/
theorem c2_uninit_returns_raw_global (s : HostState) (c : PathCategory)
    (h : s.initialized = false) :
    get_path c s = hostPathValue c s.paths := by
  cases c <;> rfl

/-- Witness for amended C2 at the concrete Uninitialized state. -/
theorem c2_uninit_returns_raw_global_witness :
    uninitState.initialized = false ∧
    get_path PathCategory.Config uninitState
      = hostPathValue PathCategory.Config uninitState.paths :=
  ⟨rfl, c2_uninit_returns_raw_global uninitState PathCategory.Config rfl⟩

/-- C6: after host initialization, each of the nine path accessors
returns exactly the value the host holds for that category, and the
result is non-empty unless the host itself holds an empty path. -/
theorem c6_paths_after_init (s : HostState) (c : PathCategory)
    (h : s.initialized = true) :
    get_path c s = hostPathValue c s.paths ∧
    (hostPathValue c s.paths ≠ "" → get_path c s ≠ "") := by
  cases c <;> exact ⟨rfl, fun hn => hn⟩

/-- Witness for C6 at the concrete initialized state. -/
theorem c6_paths_after_init_witness :
    sampleState.initialized = true ∧
    get_path PathCategory.Logs sampleState
      = hostPathValue PathCategory.Logs sampleState.paths ∧
    get_path PathCategory.Logs sampleState ≠ "" :=
  ⟨rfl, (c6_paths_after_init sampleState PathCategory.Logs rfl).1,
    (c6_paths_after_init sampleState PathCategory.Logs rfl).2 (by decide)⟩

/-- Counterexample to C3: for a concrete null reference (address 0 in a
memory with no live records) each display-name projection dereferences
unconditionally — the execution is undefined behavior — and none of the
three returns the distinct Invalid-reference error. -/
theorem c3_counterexample :
    playerClient_name (fun _ => none) 0 = NameResult.ub ∧
    playerClient_name (fun _ => none) 0 ≠ NameResult.invalidRefError ∧
    eqGroundItem_name (fun _ => none) 0 ≠ NameResult.invalidRefError ∧
    mqPlugin_plugin_name (fun _ => none) 0 ≠ NameResult.invalidRefError :=
  ⟨rfl, by decide, by decide, by decide⟩

/-- C3 as amended: the display-name projections perform no non-nullness
validation; on a null or stale reference the unconditional dereference
is undefined behavior, and the distinct Invalid-reference error is
never returned by any of the three projections. -/
theorem c3_unchecked_dereference :
    (∀ (m : Nat → Option PlayerClient) (p : Nat),
        m p = none → playerClient_name m p = NameResult.ub) ∧
    (∀ (m : Nat → Option EQGroundItem) (p : Nat),
        m p = none → eqGroundItem_name m p = NameResult.ub) ∧
    (∀ (m : Nat → Option MQPlugin) (p : Nat),
        m p = none → mqPlugin_plugin_name m p = NameResult.ub) ∧
    (∀ (m : Nat → Option PlayerClient) (p : Nat),
        playerClient_name m p ≠ NameResult.invalidRefError) ∧
    (∀ (m : Nat → Option EQGroundItem) (p : Nat),
        eqGroundItem_name m p ≠ NameResult.invalidRefError) ∧
    (∀ (m : Nat → Option MQPlugin) (p : Nat),
        mqPlugin_plugin_name m p ≠ NameResult.invalidRefError) := by
  refine ⟨?_, ?_, ?_, ?_, ?_, ?_⟩
  · intro m p hm; simp [playerClient_name, hm]
  · intro m p hm; simp [eqGroundItem_name, hm]
  · intro m p hm; simp [mqPlugin_plugin_name, hm]
  · intro m p; unfold playerClient_name; cases m p <;> simp
  · intro m p; unfold eqGroundItem_name; cases m p <;> simp
  · intro m p; unfold mqPlugin_plugin_name; cases m p <;> simp

/-- Witness for amended C3 at the concrete stale address 7. -/
theorem c3_unchecked_dereference_witness :
    playerClient_name sampleState.players 7 = NameResult.ub ∧
    mqPlugin_plugin_name sampleState.plugins 7 ≠ NameResult.invalidRefError :=
  ⟨c3_unchecked_dereference.1 sampleState.players 7 (by decide),
    c3_unchecked_dereference.2.2.2.2.2 sampleState.plugins 7⟩

/-- C7: a valid, non-stale entity reference yields exactly the content
of the record's Name field; in particular a record whose host-side Name
field holds `"Bristlebane"` yields exactly `"Bristlebane"`. -/
theorem c7_valid_name_exact (m : Nat → Option PlayerClient) (p : Nat) (r : PlayerClient)
    (hm : m p = some r) :
    playerClient_name m p = NameResult.ok r.Name ∧
    (r.Name = "Bristlebane" → playerClient_name m p = NameResult.ok "Bristlebane") := by
  constructor
  · simp [playerClient_name, hm]
  · intro hn; simp [playerClient_name, hm, hn]

/-- Witness for C7: the live record at address 1 of the sample state. -/
theorem c7_valid_name_exact_witness :
    sampleState.players 1 = some ⟨"Bristlebane", 0⟩ ∧
    playerClient_name sampleState.players 1 = NameResult.ok "Bristlebane" :=
  ⟨by decide,
    (c7_valid_name_exact sampleState.players 1 ⟨"Bristlebane", 0⟩ (by decide)).2 rfl⟩

/-- Counterexample to C8: for the concrete host byte `0xFF` (never
valid in UTF-8) the bridge marshalling does not produce an explicit
failure result and does not lossily substitute — `rust::Str`
construction throws `std::invalid_argument`, a fault crossing the
boundary, contradicting "never throws an uncatchable fault". -/
theorem c8_counterexample :
    validUtf8 [0xFF] = false ∧
    rustStrFromHost [0xFF] = MarshalResult.thrownInvalidArgument :=
  ⟨by decide, by decide⟩

/-- C8 as amended: host text marshalling has no explicit error-result
or lossy-substitution policy; valid UTF-8 bytes are passed through
unchanged, and any invalid byte sequence causes the `rust::Str`
constructor to throw `std::invalid_argument` across the bridge. -/
theorem c8_marshal_throws_on_invalid (bs : List Nat) :
    (validUtf8 bs = true → rustStrFromHost bs = MarshalResult.ok bs) ∧
    (validUtf8 bs = false → rustStrFromHost bs = MarshalResult.thrownInvalidArgument) := by
  constructor <;> intro h <;> simp [rustStrFromHost, h]

/-- Witness for amended C8: ASCII `"Hi"` passes through; the truncated
two-byte sequence `C3 28` throws. -/
theorem c8_marshal_throws_on_invalid_witness :
    validUtf8 [72, 105] = true ∧ rustStrFromHost [72, 105] = MarshalResult.ok [72, 105] ∧
    validUtf8 [0xC3, 0x28] = false ∧
    rustStrFromHost [0xC3, 0x28] = MarshalResult.thrownInvalidArgument :=
  ⟨by decide, (c8_marshal_throws_on_invalid [72, 105]).1 (by decide),
    by decide, (c8_marshal_throws_on_invalid [0xC3, 0x28]).2 (by decide)⟩

/-- C5: each boundary view class declares no data members of its own
(only read-only projection methods), so its layout is exactly the host
base layout, and reading the display-name slot through the narrowed
view reads exactly the host structure's corresponding slot. -/
theorem c5_views_layout_compatible :
    EQGroundItem_ownMembers = [] ∧ PlayerClient_ownMembers = [] ∧ MQPlugin_ownMembers = [] ∧
    (∀ host : Layout,
      derivedLayout host EQGroundItem_ownMembers = host ∧
      derivedLayout host PlayerClient_ownMembers = host ∧
      derivedLayout host MQPlugin_ownMembers = host) ∧
    (∀ host : Layout,
      readSlot (derivedLayout host EQGroundItem_ownMembers) "Name" = readSlot host "Name" ∧
      readSlot (derivedLayout host PlayerClient_ownMembers) "Name" = readSlot host "Name" ∧
      readSlot (derivedLayout host MQPlugin_ownMembers) "name" = readSlot host "name") := by
  refine ⟨rfl, rfl, rfl, fun host => ?_, fun host => ?_⟩ <;>
    simp [derivedLayout, EQGroundItem_ownMembers, PlayerClient_ownMembers, MQPlugin_ownMembers]

/-- C9: every read-only boundary operation (the nine path accessors and
the three name projections, on defined executions) leaves the host
state unchanged, and the only host-state mutation any boundary
operation performs is the single chat-output append of write chat
line — paths, entity memory and descriptors are untouched even by it. -/
theorem c9_read_only_frame (s : HostState) :
    (∀ op : Op, readOnly op = true →
      (runOp s op).2 ≠ Output.nameRes NameResult.ub → (runOp s op).1 = s) ∧
    (∀ (line : List Char) (color : Int),
      (runOp s (Op.writeChatColor line color)).1
        = { s with chat := s.chat ++ [⟨cString line, color⟩] }) := by
  constructor
  · intro op hro _; exact runOp_readOnly_state s op hro
  · intro line color; rfl

/-- Witness for C9: a concrete path read leaves the sample state
untouched; a concrete chat write changes only the chat log. -/
theorem c9_read_only_frame_witness :
    (runOp sampleState (Op.getPath PathCategory.MQRoot)).1 = sampleState ∧
    (runOp sampleState (Op.writeChatColor ("hail".toList) 3)).1
      = { sampleState with chat := sampleState.chat ++ [⟨cString ("hail".toList), 3⟩] } :=
  ⟨(c9_read_only_frame sampleState).1 (Op.getPath PathCategory.MQRoot) (by decide) (by decide),
    (c9_read_only_frame sampleState).2 ("hail".toList) 3⟩

/-- C10: read-only accessors are deterministic functions of the host
state and their arguments — a second call with identical inputs against
the (unchanged) state left by the first call yields the identical
output and state (defined executions). -/
theorem c10_read_only_deterministic (s : HostState) (op : Op)
    (hro : readOnly op = true)
    (hdef : (runOp s op).2 ≠ Output.nameRes NameResult.ub) :
    runOp ((runOp s op).1) op = runOp s op := by
  rw [runOp_readOnly_state s op hro]

/-- Witness for C10: repeating a concrete path read against the sample
state reproduces the identical result. -/
theorem c10_read_only_deterministic_witness :
    runOp ((runOp sampleState (Op.getPath PathCategory.EverQuest)).1)
        (Op.getPath PathCategory.EverQuest)
      = runOp sampleState (Op.getPath PathCategory.EverQuest) :=
  c10_read_only_deterministic sampleState (Op.getPath PathCategory.EverQuest)
    (by decide) (by decide)

end MQRust
